import Mathlib

/-!
Verification development for the tool-calling orchestration scripts of the
python-openai-demos repository.

The Python scripts under verification share a common data model: a
conversation is a list of role-tagged messages; an assistant turn may carry
tool-call requests (id, name, raw JSON-encoded arguments); each request is
dispatched against a registry mapping tool names to callables, and the
outcome is appended back as a tool-role message.

The embedding below models:
  - JSON values (`JValue`) as produced by Python `json.loads` and consumed
    by `json.dumps`; a `JValue.pyobj` constructor stands for an arbitrary
    Python object that is not JSON-serializable (carrying its `str()` text).
  - `jsonLoads` : a fuel-indexed JSON parser modelling `json.loads` on the
    JSON fragment the scripts exercise (objects, arrays, strings, numbers,
    booleans, null); malformed text yields an error, as `json.loads` raises
    `json.JSONDecodeError`.
  - `jsonDumps` : `json.dumps` with its default separators; it fails (is
    `none`) exactly when the value contains a non-serializable object.
  - Python truthiness (`truthy`) and the `x or y` idiom (`pyOr`).
  - Each script variant's tool bodies and its module-level dispatch logic,
    translated line by line from the source.
-/

/-- A JSON-like Python value. `pyobj s` stands for a Python object with no
JSON serialization whose `str()` representation is `s`. `decimal` holds a
fractional literal (sign, integer part, fraction digits). -/
inductive JValue where
  | str (s : String)
  | num (n : Int)
  | decimal (neg : Bool) (ip : Nat) (frac : String)
  | bool (b : Bool)
  | null
  | arr (xs : List JValue)
  | obj (kvs : List (String × JValue))
  | pyobj (txt : String)

/-- Whitespace accepted between JSON tokens. -/
def isJsonWs (c : Char) : Bool :=
  c = ' ' || c = '\t' || c = '\n' || c = '\r'

/-- Drop leading JSON whitespace. -/
def skipWs : List Char → List Char
  | [] => []
  | c :: cs => if isJsonWs c then skipWs cs else c :: cs

/-- Longest digit prefix and the rest. -/
def takeDigits : List Char → List Char × List Char
  | [] => ([], [])
  | c :: cs =>
    if c.isDigit then
      let p := takeDigits cs
      (c :: p.1, p.2)
    else ([], c :: cs)

/-- Numeric value of a digit string. -/
def digitsVal (ds : List Char) : Nat :=
  ds.foldl (fun a c => a * 10 + (c.toNat - 48)) 0

/-- Decode one JSON string escape character. -/
def unescape (c : Char) : Option Char :=
  if c = '"' then some '"'
  else if c = '\\' then some '\\'
  else if c = '/' then some '/'
  else if c = 'n' then some '\n'
  else if c = 't' then some '\t'
  else if c = 'r' then some '\r'
  else if c = 'b' then some (Char.ofNat 8)
  else if c = 'f' then some (Char.ofNat 12)
  else none

/-- Parse the body of a JSON string literal (after the opening quote),
returning the decoded characters and the rest of the input. -/
def parseStrBody : List Char → Option (List Char × List Char)
  | [] => none
  | c :: cs =>
    if c = '"' then some ([], cs)
    else if c = '\\' then
      match cs with
      | [] => none
      | e :: cs2 =>
        match unescape e with
        | some d => (parseStrBody cs2).map (fun p => (d :: p.1, p.2))
        | none => none
    else (parseStrBody cs).map (fun p => (c :: p.1, p.2))

/-- Parse a JSON number (integer or decimal literal). -/
def parseNum (cs : List Char) : Option (JValue × List Char) :=
  let sign : Bool × List Char :=
    match cs with
    | '-' :: rest => (true, rest)
    | _ => (false, cs)
  match takeDigits sign.2 with
  | ([], _) => none
  | (ds, rest) =>
    match rest with
    | '.' :: rest2 =>
      match takeDigits rest2 with
      | ([], _) => none
      | (fs, rest3) => some (.decimal sign.1 (digitsVal ds) (String.mk fs), rest3)
    | _ =>
      let n : Int := Int.ofNat (digitsVal ds)
      some (.num (if sign.1 then -n else n), rest)

/-- Parse the members of a JSON object, `pv` parsing each value. -/
def parseMembers (pv : List Char → Option (JValue × List Char)) :
    Nat → List Char → Option (List (String × JValue) × List Char)
  | 0, _ => none
  | f + 1, cs =>
    match skipWs cs with
    | '"' :: cs1 =>
      match parseStrBody cs1 with
      | none => none
      | some (key, cs2) =>
        match skipWs cs2 with
        | ':' :: cs3 =>
          match pv cs3 with
          | none => none
          | some (v, cs4) =>
            match skipWs cs4 with
            | ',' :: cs5 =>
              (parseMembers pv f cs5).map (fun p => ((String.mk key, v) :: p.1, p.2))
            | '\x7d' :: cs5 => some ([(String.mk key, v)], cs5)
            | _ => none
        | _ => none
    | _ => none

/-- Parse the elements of a JSON array, `pv` parsing each value. -/
def parseElems (pv : List Char → Option (JValue × List Char)) :
    Nat → List Char → Option (List JValue × List Char)
  | 0, _ => none
  | f + 1, cs =>
    match pv cs with
    | none => none
    | some (v, cs1) =>
      match skipWs cs1 with
      | ',' :: cs2 => (parseElems pv f cs2).map (fun p => (v :: p.1, p.2))
      | ']' :: cs2 => some ([v], cs2)
      | _ => none

/-- Parse one JSON value; the fuel bounds nesting and member counts. -/
def parseVal : Nat → List Char → Option (JValue × List Char)
  | 0, _ => none
  | f + 1, cs0 =>
    match skipWs cs0 with
    | [] => none
    | c :: cs =>
      if c = '\x7b' then
        match skipWs cs with
        | '\x7d' :: cs1 => some (.obj [], cs1)
        | _ => (parseMembers (fun x => parseVal f x) f cs).map (fun p => (JValue.obj p.1, p.2))
      else if c = '[' then
        match skipWs cs with
        | ']' :: cs1 => some (.arr [], cs1)
        | _ => (parseElems (fun x => parseVal f x) f cs).map (fun p => (JValue.arr p.1, p.2))
      else if c = '"' then
        (parseStrBody cs).map (fun p => (JValue.str (String.mk p.1), p.2))
      else if c = 't' then
        match cs with
        | 'r' :: 'u' :: 'e' :: cs1 => some (.bool true, cs1)
        | _ => none
      else if c = 'f' then
        match cs with
        | 'a' :: 'l' :: 's' :: 'e' :: cs1 => some (.bool false, cs1)
        | _ => none
      else if c = 'n' then
        match cs with
        | 'u' :: 'l' :: 'l' :: cs1 => some (.null, cs1)
        | _ => none
      else parseNum (c :: cs)

/-- Model of Python `json.loads`: parse a complete JSON document, failing on
malformed input exactly as `json.loads` raises `json.JSONDecodeError`. -/
def jsonLoads (s : String) : Except Unit JValue :=
  match parseVal (s.length + 2) s.data with
  | some (v, rest) => if (skipWs rest).isEmpty then .ok v else .error ()
  | none => .error ()

/-- Escape one character for a JSON string literal. -/
def jstrChar (c : Char) : String :=
  if c = '"' then "\\\""
  else if c = '\\' then "\\\\"
  else if c = '\n' then "\\n"
  else if c = '\t' then "\\t"
  else if c = '\r' then "\\r"
  else String.singleton c

/-- Render a JSON string literal with quotes and escapes. -/
def jstr (s : String) : String :=
  "\"" ++ String.join (s.data.map jstrChar) ++ "\""

/-- Render a decimal literal. -/
def decStr (neg : Bool) (ip : Nat) (frac : String) : String :=
  (if neg then "-" else "") ++ toString ip ++ "." ++ frac

mutual
/-- Model of Python `json.dumps` with its default separators: `none` exactly
when the value contains a non-serializable object (where `json.dumps`
raises `TypeError`). -/
def jsonDumps : JValue → Option String
  | .str s => some (jstr s)
  | .num n => some (toString n)
  | .decimal neg ip frac => some (decStr neg ip frac)
  | .bool b => some (if b then "true" else "false")
  | .null => some "null"
  | .pyobj _ => none
  | .arr xs =>
    match jsonDumpsList xs with
    | some s => some ("[" ++ s ++ "]")
    | none => none
  | .obj kvs =>
    match jsonDumpsPairs kvs with
    | some s => some ("\x7b" ++ s ++ "\x7d")
    | none => none

/-- Comma-joined renderings of array elements. -/
def jsonDumpsList : List JValue → Option String
  | [] => some ""
  | [x] => jsonDumps x
  | x :: y :: xs =>
    match jsonDumps x, jsonDumpsList (y :: xs) with
    | some a, some b => some (a ++ ", " ++ b)
    | _, _ => none

/-- Comma-joined renderings of object members. -/
def jsonDumpsPairs : List (String × JValue) → Option String
  | [] => some ""
  | [(k, v)] =>
    match jsonDumps v with
    | some s => some (jstr k ++ ": " ++ s)
    | none => none
  | (k, v) :: p :: kvs =>
    match jsonDumps v, jsonDumpsPairs (p :: kvs) with
    | some a, some b => some (jstr k ++ ": " ++ a ++ ", " ++ b)
    | _, _ => none
end

mutual
/-- Model of Python `repr()` on JSON-like values (used inside containers by
`str()`). -/
def pyRepr : JValue → String
  | .str s => "\x27" ++ s ++ "\x27"
  | .num n => toString n
  | .decimal neg ip frac => decStr neg ip frac
  | .bool b => if b then "True" else "False"
  | .null => "None"
  | .pyobj txt => txt
  | .arr xs => "[" ++ pyReprList xs ++ "]"
  | .obj kvs => "\x7b" ++ pyReprPairs kvs ++ "\x7d"

/-- Comma-joined reprs of list elements. -/
def pyReprList : List JValue → String
  | [] => ""
  | [x] => pyRepr x
  | x :: y :: xs => pyRepr x ++ ", " ++ pyReprList (y :: xs)

/-- Comma-joined reprs of dict members. -/
def pyReprPairs : List (String × JValue) → String
  | [] => ""
  | [(k, v)] => "\x27" ++ k ++ "\x27: " ++ pyRepr v
  | (k, v) :: p :: kvs => "\x27" ++ k ++ "\x27: " ++ pyRepr v ++ ", " ++ pyReprPairs (p :: kvs)
end

/-- Model of Python `str()`: strings render without quotes at top level,
anything else as its repr. -/
def pyStr : JValue → String
  | .str s => s
  | v => pyRepr v

/-- Python truthiness of a JSON-like value. -/
def truthy : JValue → Bool
  | .str s => !(s == "")
  | .num n => !(n == 0)
  | .decimal _ ip frac => !(ip == 0) || frac.data.any (fun c => !(c == '0'))
  | .bool b => b
  | .null => false
  | .pyobj _ => true
  | .arr xs => !xs.isEmpty
  | .obj kvs => !kvs.isEmpty

/-- Python `a or b` on values. -/
def pyOr (a b : JValue) : JValue :=
  if truthy a then a else b

/-- Python `s or d` for an optional string (`None` and `""` are falsy),
as in `tool_call.function.arguments or "\x7b\x7d"`. -/
def pyOrStr (a : Option String) (d : String) : String :=
  match a with
  | none => d
  | some s => if s = "" then d else s

/-- `raw_args.strip()` is empty, i.e. the text is all whitespace. -/
def pyStripEmpty (s : String) : Bool :=
  s.data.all isJsonWs

/-- One tool-call request as delivered by the model endpoint:
`tool_call.id`, `tool_call.function.name`, `tool_call.function.arguments`
(the latter may be absent, which Python sees as `None`). -/
structure ToolCallRequest where
  id : String
  name : String
  arguments : Option String
deriving Repr, DecidableEq

/-- A conversation message. Tool-role messages carry the `tool_call_id`
back-reference, an optional `name` field (the parallel scripts omit it),
and the encoded content. -/
inductive Message where
  | system (content : String)
  | user (content : String)
  | assistant (content : String) (tool_calls : List ToolCallRequest)
  | tool (tool_call_id : String) (name : Option String) (content : String)
deriving Repr, DecidableEq

/-- One assistant response from the model endpoint: `message.content`
(possibly `None`) and `message.tool_calls`. -/
structure ModelResponse where
  content : Option String
  tool_calls : List ToolCallRequest
deriving Repr, DecidableEq

/-- A tool implementation: a Python function called as `target(**kwargs)`.
It receives the decoded keyword arguments and either returns a value or
raises (modelled as `.error` with the exception text). -/
def ToolFn : Type :=
  List (String × JValue) → Except String JValue

/-- Python dict lookup on the decoded JSON object (later duplicate keys win,
as in `json.loads`). -/
def dictGet (kvs : List (String × JValue)) (k : String) : Option JValue :=
  (kvs.reverse.find? (fun p => p.1 == k)).map (fun p => p.2)

/-- `tool_mapping.get(fn_name)` / `available_functions[function_name]`. -/
def lookupTool (m : List (String × ToolFn)) (n : String) : Option ToolFn :=
  (m.find? (fun p => p.1 == n)).map (fun p => p.2)

/-- Python `target(**parsed_args)`: unpacking a non-mapping raises
`TypeError`; otherwise the tool function is applied to the keyword set. -/
def callKw (f : ToolFn) : JValue → Except String JValue
  | .obj kvs => f kvs
  | _ => .error "argument after ** must be a mapping"

/-- An uncaught Python exception terminating the module-level script. -/
inductive PyErr where
  | jsonDecodeError
  | typeError (msg : String)
  | execError (msg : String)
  | serializeError
  | poolHang
deriving Repr, DecidableEq

namespace ExtErrors

/-- `lookup_weather` from function_calling_extended_errors.py lines 52-63:
`location = city_name or zip_code or "unknown"`, then a fixed sunny stub.
The keyword check models Python call binding: `lookup_weather` accepts only
`city_name` and `zip_code` and raises `TypeError` on any other keyword. -/
def lookup_weather : ToolFn := fun kvs =>
  if kvs.all (fun p => p.1 == "city_name" || p.1 == "zip_code") then
    let city := (dictGet kvs "city_name").getD .null
    let zipc := (dictGet kvs "zip_code").getD .null
    .ok (.obj [
      ("location", pyOr (pyOr city zipc) (.str "unknown")),
      ("weather", .str "sunny"),
      ("temperature_f", .num 75),
      ("advice", .str "Great day to be outside!")])
  else .error "lookup_weather() got an unexpected keyword argument"

end ExtErrors

namespace Tourism

/-- `lookup_weather` from function_calling_while_loop.py lines 84-94 and,
with identical text, function_calling_parallel.py lines 85-94:
`location = city_name or zip_code or "unknown"`, then a fixed rainy stub. -/
def lookup_weather : ToolFn := fun kvs =>
  if kvs.all (fun p => p.1 == "city_name" || p.1 == "zip_code") then
    let city := (dictGet kvs "city_name").getD .null
    let zipc := (dictGet kvs "zip_code").getD .null
    .ok (.obj [
      ("location", pyOr (pyOr city zipc) (.str "unknown")),
      ("condition", .str "rain showers"),
      ("rain_mm_last_24h", .num 7),
      ("recommendation", .str "Good day for indoor activities if you dislike drizzle.")])
  else .error "lookup_weather() got an unexpected keyword argument"

/-- `lookup_movies` from function_calling_while_loop.py lines 96-107 and,
with identical text, function_calling_parallel.py lines 97-108. -/
def lookup_movies : ToolFn := fun kvs =>
  if kvs.all (fun p => p.1 == "city_name" || p.1 == "zip_code") then
    let city := (dictGet kvs "city_name").getD .null
    let zipc := (dictGet kvs "zip_code").getD .null
    .ok (.obj [
      ("location", pyOr (pyOr city zipc) (.str "unknown")),
      ("movies", .arr [
        .obj [("title", .str "The Quantum Reef"), ("rating", .str "PG-13")],
        .obj [("title", .str "Storm Over Harbour Bay"), ("rating", .str "PG")],
        .obj [("title", .str "Midnight Koala"), ("rating", .str "R")]])])
  else .error "lookup_movies() got an unexpected keyword argument"

end Tourism

namespace EsExt

/-- `lookup_weather` from spanish/function_calling_extended_errors.py lines
51-59: `location = city_name or zip_code or "desconocido"`, returned under
the `ubicacion` key. -/
def lookup_weather : ToolFn := fun kvs =>
  if kvs.all (fun p => p.1 == "city_name" || p.1 == "zip_code") then
    let city := (dictGet kvs "city_name").getD .null
    let zipc := (dictGet kvs "zip_code").getD .null
    .ok (.obj [
      ("ubicacion", pyOr (pyOr city zipc) (.str "desconocido")),
      ("clima", .str "soleado"),
      ("temperatura_f", .num 75),
      ("consejo", .str "¡Gran día para estar al aire libre!")])
  else .error "lookup_weather() got an unexpected keyword argument"

end EsExt

/-- `tool_mapping` of function_calling_extended_errors.py. -/
def tool_mapping_ext : List (String × ToolFn) :=
  [("lookup_weather", ExtErrors.lookup_weather)]

/-- `tool_mapping` of function_calling_while_loop.py; the `available_functions`
mapping of function_calling_parallel.py holds the same two entries. -/
def tool_mapping_wl : List (String × ToolFn) :=
  [("lookup_weather", Tourism.lookup_weather), ("lookup_movies", Tourism.lookup_movies)]

/-- The per-variant literal texts of the guarded dispatch loop. The five
guarded scripts (function_calling_extended_errors.py,
function_calling_fewshots.py and the three spanish counterparts) share the
same control flow and differ only in these strings. -/
structure VariantText where
  notFoundMsg : String → String
  malformedMsg : String
  execErrMsg : String → String → String
  fallbackKey : String

/-- Texts of function_calling_extended_errors.py (identical in
function_calling_fewshots.py). -/
def enText : VariantText where
  notFoundMsg := fun n => "ERROR: No implementation registered for tool \x27" ++ n ++ "\x27"
  malformedMsg := "Warning: Malformed JSON arguments received; proceeding with empty args"
  execErrMsg := fun n e => "Tool execution error in " ++ n ++ ": " ++ e
  fallbackKey := "result"

/-- Texts of spanish/function_calling_extended_errors.py; note the fallback
envelope key is `resultado`. -/
def esExtText : VariantText where
  notFoundMsg := fun n => "ERROR: No hay implementación registrada para la herramienta \x27" ++ n ++ "\x27"
  malformedMsg := "Advertencia: JSON de argumentos malformado; se continúa con argumentos vacíos"
  execErrMsg := fun n e => "Error ejecutando la herramienta " ++ n ++ ": " ++ e
  fallbackKey := "resultado"

/-- Texts of spanish/function_calling_errors.py (identical in
spanish/function_calling_fewshots.py); the fallback key is `result`. -/
def esErrorsText : VariantText where
  notFoundMsg := fun n => "ERROR: No hay implementación registrada para la tool \x27" ++ n ++ "\x27"
  malformedMsg := "Warning: JSON arguments malformados; sigo con args vacíos"
  execErrMsg := fun n e => "Error ejecutando la tool " ++ n ++ ": " ++ e
  fallbackKey := "result"

/-- The guarded tool invocation: `try: tool_result = target(**parsed_args)
except Exception as e: tool_result = f"... \x7bfn_name\x7d: \x7be\x7d"`. -/
def extCallGuarded (vt : VariantText) (name : String) (target : ToolFn) (parsed : JValue) : JValue :=
  match callKw target parsed with
  | .ok v => v
  | .error e => .str (vt.execErrMsg name e)

/-- The `tool_result` computed by one iteration of the guarded dispatch loop
(function_calling_extended_errors.py lines 124-142): registry lookup, then
`json.loads(raw_args) if raw_args.strip() else \x7b\x7d` under
`except json.JSONDecodeError`, then the guarded call. -/
def extToolResult (vt : VariantText) (registry : List (String × ToolFn)) (tc : ToolCallRequest) : JValue :=
  let raw_args := pyOrStr tc.arguments "\x7b\x7d"
  match lookupTool registry tc.name with
  | none => .str (vt.notFoundMsg tc.name)
  | some target =>
    if pyStripEmpty raw_args then extCallGuarded vt tc.name target (.obj [])
    else
      match jsonLoads raw_args with
      | .error _ => .str vt.malformedMsg
      | .ok parsed => extCallGuarded vt tc.name target parsed

/-- The `tool_content` serialization (lines 144-149): `json.dumps(tool_result)`
with fallback `json.dumps(\x7b"result": str(tool_result)\x7d)` (the
envelope key is per-variant). -/
def encodeToolResult (key : String) (v : JValue) : String :=
  match jsonDumps v with
  | some s => s
  | none =>
    match jsonDumps (JValue.obj [(key, JValue.str (pyStr v))]) with
    | some s => s
    | none => ""

/-- The tool-role message appended for one request by the guarded dispatch
loop (lines 151-158): it carries the request id, the tool name, and the
encoded outcome; this function is total because every failure source in the
loop body is wrapped in try/except in the source. -/
def extProcessOne (vt : VariantText) (registry : List (String × ToolFn)) (tc : ToolCallRequest) : Message :=
  Message.tool tc.id (some tc.name) (encodeToolResult vt.fallbackKey (extToolResult vt registry tc))

/-- One iteration of the unguarded dispatch loop of
function_calling_while_loop.py lines 153-169 (identical in
spanish/function_calling_while_loop.py lines 137-153): `json.loads` raises
on malformed arguments, `target_tool(**parsed_args)` raises `TypeError`
when the registry lookup returned `None` and propagates any tool exception,
and `json.dumps` raises on non-serializable results. -/
def wlProcessOne (registry : List (String × ToolFn)) (tc : ToolCallRequest) : Except PyErr Message :=
  let raw_args := pyOrStr tc.arguments "\x7b\x7d"
  let target := lookupTool registry tc.name
  match jsonLoads raw_args with
  | .error _ => .error .jsonDecodeError
  | .ok parsed =>
    match target with
    | none => .error (.typeError "\x27NoneType\x27 object is not callable")
    | some f =>
      match callKw f parsed with
      | .error e => .error (.execError e)
      | .ok v =>
        match jsonDumps v with
        | none => .error .serializeError
        | some s => .ok (Message.tool tc.id (some tc.name) s)

/-- The tool messages appended by the while-loop dispatch for one assistant
turn; the first uncaught exception aborts the whole run. -/
def wlDispatchMsgs (registry : List (String × ToolFn)) : List ToolCallRequest → Except PyErr (List Message)
  | [] => .ok []
  | tc :: rest =>
    match wlProcessOne registry tc with
    | .error e => .error e
    | .ok m =>
      match wlDispatchMsgs registry rest with
      | .error e => .error e
      | .ok ms => .ok (m :: ms)

/-- Result of the continuous loop of function_calling_while_loop.py:
either the final printed answer (break on a response without tool calls),
an uncaught exception, or exhaustion of the supplied response stream. -/
inductive LoopResult where
  | finalAnswer (content : Option String)
  | crashed (e : PyErr)
  | outOfResponses
deriving Repr, DecidableEq

/-- The `while True` loop of function_calling_while_loop.py lines 126-169
(identical in spanish/function_calling_while_loop.py lines 111-153), run
against a stream of model responses: break and print when a response has no
tool calls, otherwise append the assistant message and the dispatched tool
messages and call the model again. -/
def wlLoop (registry : List (String × ToolFn)) : List Message → List ModelResponse → LoopResult
  | _, [] => .outOfResponses
  | msgs, r :: rest =>
    if r.tool_calls.isEmpty then .finalAnswer r.content
    else
      match wlDispatchMsgs registry r.tool_calls with
      | .error e => .crashed e
      | .ok newMsgs =>
        wlLoop registry (msgs ++ [Message.assistant (pyOrStr r.content "") r.tool_calls] ++ newMsgs) rest

/-- `json.loads(tool_call.function.arguments)` as called by
function_calling_parallel.py line 143 with no guard: absent arguments are
Python `None` and raise `TypeError`; malformed text raises
`json.JSONDecodeError`. -/
def pyJsonLoadsOpt : Option String → Except PyErr JValue
  | none => .error (.typeError "the JSON object must be str, bytes or bytearray, not NoneType")
  | some s =>
    match jsonLoads s with
    | .ok v => .ok v
    | .error _ => .error .jsonDecodeError

/-- The submit loop of function_calling_parallel.py lines 140-148 (identical
in spanish/function_calling_parallel.py lines 143-151): decode each
request's arguments, then submit `available_functions[function_name]` to
the pool only when the name is registered, keeping `(tool_call, future)`
pairs in submission order. Each future is represented by the deterministic
outcome its worker will produce. -/
def parSubmit (avail : List (String × ToolFn)) : List ToolCallRequest → Except PyErr (List (ToolCallRequest × Except String JValue))
  | [] => .ok []
  | tc :: rest =>
    match pyJsonLoadsOpt tc.arguments with
    | .error e => .error e
    | .ok parsed =>
      match lookupTool avail tc.name with
      | some f =>
        match parsed with
        | .obj kvs =>
          match parSubmit avail rest with
          | .error e => .error e
          | .ok tail => .ok ((tc, f kvs) :: tail)
        | _ => .error (.typeError "argument after ** must be a mapping")
      | none => parSubmit avail rest

/-- The worker pool's completion log: the futures (numbered by submission
position) finish in the arbitrary order `order`, each recording its own
outcome. -/
def poolLog (futs : List (ToolCallRequest × Except String JValue)) (order : List Nat) : List (Nat × Except String JValue) :=
  order.filterMap (fun i => (futs.get? i).map (fun t => (i, t.2)))

/-- `future.result()`: the completed outcome of future `i`, found in the
completion log by future identity (not by completion position). -/
def futureResult (log : List (Nat × Except String JValue)) (i : Nat) : Option (Except String JValue) :=
  (log.find? (fun p => p.1 == i)).map (fun p => p.2)

/-- The collection loop of function_calling_parallel.py lines 151-153:
walk the `(tool_call, future)` pairs in submission order, take each
future's own result (re-raising the tool's exception if it failed, or
blocking forever if the future never completes), and append a tool-role
message that carries the originating `tool_call.id` but no `name` field. -/
def parCollect (log : List (Nat × Except String JValue)) : List Message → Nat → List (ToolCallRequest × Except String JValue) → Except PyErr (List Message)
  | msgs, _, [] => .ok msgs
  | msgs, i, (tc, _) :: rest =>
    match futureResult log i with
    | none => .error .poolHang
    | some (.error e) => .error (.execError e)
    | some (.ok v) =>
      match jsonDumps v with
      | none => .error .serializeError
      | some s => parCollect log (msgs ++ [Message.tool tc.id none s]) (i + 1) rest

/-- The whole `ThreadPoolExecutor` block of function_calling_parallel.py
lines 138-153: submit every decodable registered request, let the pool
complete the futures in the arbitrary order `order`, then collect in
submission order. -/
def parallelDispatch (avail : List (String × ToolFn)) (msgs : List Message) (tcs : List ToolCallRequest) (order : List Nat) : Except PyErr (List Message) :=
  match parSubmit avail tcs with
  | .error e => .error e
  | .ok futs => parCollect (poolLog futs order) msgs 0 futs

/-- What one single-round-trip run produces: the final conversation, the
printed final content, and how many follow-up model calls and dispatch
passes happened. -/
structure SrtResult where
  messages : List Message
  final : Option String
  followupCalls : Nat
  dispatchPasses : Nat
deriving Repr, DecidableEq

/-- The module-level flow of function_calling_extended_errors.py lines
106-168 (identical in function_calling_fewshots.py lines 147-209 and the
three guarded spanish scripts): if the first response has no tool calls its
content is final with no dispatch; otherwise append the assistant message,
run exactly one guarded dispatch pass, issue exactly one follow-up model
call and return its content as final — the follow-up's own tool calls are
never dispatched. -/
def singleRoundTrip (vt : VariantText) (registry : List (String × ToolFn)) (msgs : List Message) (first followup : ModelResponse) : SrtResult :=
  if first.tool_calls.isEmpty then
    ⟨msgs, first.content, 0, 0⟩
  else
    let m1 := msgs ++ [Message.assistant (pyOrStr first.content "") first.tool_calls]
    let m2 := m1 ++ first.tool_calls.map (extProcessOne vt registry)
    ⟨m2, followup.content, 1, 1⟩

/-- The outcome a submitted future will record for one request: decode the
arguments, look the tool up, run it. Derived from `parSubmit`, it names the
job attached to each request on the success path. -/
def parJob (avail : List (String × ToolFn)) (tc : ToolCallRequest) : Except String JValue :=
  match pyJsonLoadsOpt tc.arguments with
  | .ok (.obj kvs) =>
    match lookupTool avail tc.name with
    | some f => f kvs
    | none => .error ""
  | _ => .error ""

/-- The content string the collection loop writes for a completed job. -/
def dumpOf : Except String JValue → String
  | .ok v => (jsonDumps v).getD ""
  | .error _ => ""

/-- The content of the tool message the parallel dispatch appends for one
request, on the success path. -/
def parResultContent (avail : List (String × ToolFn)) (tc : ToolCallRequest) : String :=
  dumpOf (parJob avail tc)

/-- When every request decodes to a JSON object and names a registered tool,
the submit loop returns one future per request, in submission order, each
future paired with its own request and carrying that request's job. -/
theorem parSubmit_eq (avail : List (String × ToolFn)) :
    ∀ tcs : List ToolCallRequest,
      (∀ tc ∈ tcs, (∃ kvs, pyJsonLoadsOpt tc.arguments = .ok (.obj kvs)) ∧ (lookupTool avail tc.name).isSome) →
      parSubmit avail tcs = .ok (tcs.map (fun tc => (tc, parJob avail tc))) := by
  intro tcs
  induction tcs with
  | nil => intro _; rfl
  | cons tc rest ih =>
    intro h
    obtain ⟨⟨kvs, hk⟩, hsome⟩ := h tc (List.mem_cons_self tc rest)
    obtain ⟨f, hf⟩ := Option.isSome_iff_exists.mp hsome
    have hrest := ih (fun x hx => h x (List.mem_cons_of_mem tc hx))
    have hjob : parJob avail tc = f kvs := by
      simp [parJob, hk, hf]
    simp [parSubmit, hk, hf, hrest, hjob]

/-- Whatever order the pool completes the futures in, as long as future `j`
completed at some point, `future.result()` for future `j` is future `j`'s
own recorded outcome. -/
theorem futureResult_poolLog (futs : List (ToolCallRequest × Except String JValue)) :
    ∀ (order : List Nat) (j : Nat) (hj : j < futs.length), j ∈ order →
      futureResult (poolLog futs order) j = some (futs.get ⟨j, hj⟩).2 := by
  intro order
  induction order with
  | nil => intro j hj hmem; exact absurd hmem (List.not_mem_nil j)
  | cons k order' ih =>
    intro j hj hmem
    rcases hk : futs.get? k with _ | t
    · have hjk : j ≠ k := by
        intro he
        rw [he] at hj
        rw [List.get?_eq_get hj] at hk
        exact Option.noConfusion hk
      have hmem' : j ∈ order' := by
        rcases List.mem_cons.mp hmem with h | h
        · exact absurd h hjk
        · exact h
      have hgoal : poolLog futs (k :: order') = poolLog futs order' := by
        simp only [poolLog, List.filterMap_cons, hk, Option.map_none']
      rw [hgoal]
      exact ih j hj hmem'
    · have hgoal : poolLog futs (k :: order') = (k, t.2) :: poolLog futs order' := by
        simp only [poolLog, List.filterMap_cons, hk, Option.map_some']
      rw [hgoal]
      by_cases hjk : j = k
      · subst hjk
        have ht : t = futs.get ⟨j, hj⟩ := by
          have hg := List.get?_eq_get hj
          rw [hg] at hk
          exact (Option.some.inj hk).symm
        subst ht
        unfold futureResult
        rw [List.find?_cons_of_pos]
        · rfl
        · show ((j, (futs.get ⟨j, hj⟩).2).1 == j) = true
          simp
      · have hmem' : j ∈ order' := by
          rcases List.mem_cons.mp hmem with h | h
          · exact absurd h hjk
          · exact h
        unfold futureResult
        rw [List.find?_cons_of_neg]
        · exact ih j hj hmem'
        · show ¬((k, t.2).1 == j) = true
          simp
          omega

/-- When every future in the list has completed with a serializable success
value, the collection loop appends exactly one tool message per future, in
submission order, each carrying its own request's id and its own future's
result. -/
theorem parCollect_eq (log : List (Nat × Except String JValue)) :
    ∀ (futs : List (ToolCallRequest × Except String JValue)) (i : Nat) (msgs : List Message),
      (∀ (j : Nat) (hj : j < futs.length),
          futureResult log (i + j) = some ((futs.get ⟨j, hj⟩).2) ∧
          ∃ v s, (futs.get ⟨j, hj⟩).2 = .ok v ∧ jsonDumps v = some s) →
      parCollect log msgs i futs =
        .ok (msgs ++ futs.map (fun ft => Message.tool ft.1.id none (dumpOf ft.2))) := by
  intro futs
  induction futs with
  | nil => intro i msgs _; simp [parCollect]
  | cons ft rest ih =>
    intro i msgs h
    obtain ⟨hfr, v, s, hok, hs⟩ := h 0 (Nat.succ_pos rest.length)
    have hfr' : futureResult log i = some ft.2 := by
      simpa using hfr
    have hok' : ft.2 = .ok v := by
      simpa using hok
    have hdump : dumpOf ft.2 = s := by
      rw [hok']
      simp [dumpOf, hs]
    have hrec := ih (i + 1) (msgs ++ [Message.tool ft.1.id none s]) (by
      intro j hj
      have hj' : j + 1 < (ft :: rest).length := by
        simp
        omega
      obtain ⟨h1, h2⟩ := h (j + 1) hj'
      constructor
      · have : i + (j + 1) = i + 1 + j := by omega
        rw [this] at h1
        simpa using h1
      · simpa using h2)
    obtain ⟨tc, job⟩ := ft
    simp only at hok'
    have hstep : parCollect log msgs i ((tc, job) :: rest) =
        parCollect log (msgs ++ [Message.tool tc.id none s]) (i + 1) rest := by
      simp only [parCollect, hfr', hok', hs]
    rw [hstep, hrec]
    simp [hdump]

/-- C1 (amended): in parallel mode, when every request of the turn decodes
to a JSON object, names a registered tool, and its job succeeds with a
serializable value, the dispatch appends exactly N tool-role messages —
one per request, in submission order, each carrying its own request's id
and its own request's result — for every completion order of the pool that
completes every future. (The original claim is refuted by
`claim1_counterexample`: a request naming an unregistered tool is silently
dropped, so fewer than N messages are appended.) -/
theorem claim1_parallel_pairing_by_id (avail : List (String × ToolFn)) (msgs : List Message)
    (tcs : List ToolCallRequest) (order : List Nat)
    (hsub : ∀ tc ∈ tcs, (∃ kvs, pyJsonLoadsOpt tc.arguments = .ok (.obj kvs)) ∧ (lookupTool avail tc.name).isSome)
    (hrun : ∀ tc ∈ tcs, ∃ v s, parJob avail tc = .ok v ∧ jsonDumps v = some s)
    (hord : ∀ j, j < tcs.length → j ∈ order) :
    parallelDispatch avail msgs tcs order =
      .ok (msgs ++ tcs.map (fun tc => Message.tool tc.id none (parResultContent avail tc))) := by
  have hfuts := parSubmit_eq avail tcs hsub
  unfold parallelDispatch
  rw [hfuts]
  dsimp only
  have hcol := parCollect_eq (poolLog (tcs.map (fun tc => (tc, parJob avail tc))) order)
      (tcs.map (fun tc => (tc, parJob avail tc))) 0 msgs ?_
  · rw [hcol]
    simp [parResultContent]
  · intro j hj
    have hj' : j < tcs.length := by simpa using hj
    have hget : (tcs.map (fun tc => (tc, parJob avail tc))).get ⟨j, hj⟩ =
        (tcs.get ⟨j, hj'⟩, parJob avail (tcs.get ⟨j, hj'⟩)) := by
      simp
    constructor
    · rw [Nat.zero_add]
      rw [futureResult_poolLog _ order j hj (hord j hj')]
    · rw [hget]
      exact hrun (tcs.get ⟨j, hj'⟩) (tcs.get_mem _ _)

/-- C1 counterexample: a parallel turn with N = 1 tool-call request whose
name (`lookup_currency`) is not in `available_functions` appends zero
tool-role messages, not one — the membership test in the submit loop drops
the request without any outcome message. -/
theorem claim1_counterexample :
    parallelDispatch tool_mapping_wl []
      [⟨"call_1", "lookup_currency", some "\x7b\x7d"⟩] [0] = .ok [] := by
  rfl

/-- C1 witness: two requests (`lookup_weather`, `lookup_movies`) under the
completion order `[1, 0]` — `lookup_movies` finishes first — still produce
the two tool messages in emission order, each paired with its own id. -/
theorem claim1_witness :
    (∀ j, j < 2 → j ∈ [1, 0]) ∧
    parallelDispatch tool_mapping_wl []
      [⟨"call_w", "lookup_weather", some "\x7b\"city_name\": \"Sydney\"\x7d"⟩,
       ⟨"call_m", "lookup_movies", some "\x7b\"city_name\": \"Sydney\"\x7d"⟩] [1, 0] =
      .ok [Message.tool "call_w" none
        "\x7b\"location\": \"Sydney\", \"condition\": \"rain showers\", \"rain_mm_last_24h\": 7, \"recommendation\": \"Good day for indoor activities if you dislike drizzle.\"\x7d",
        Message.tool "call_m" none
        "\x7b\"location\": \"Sydney\", \"movies\": [\x7b\"title\": \"The Quantum Reef\", \"rating\": \"PG-13\"\x7d, \x7b\"title\": \"Storm Over Harbour Bay\", \"rating\": \"PG\"\x7d, \x7b\"title\": \"Midnight Koala\", \"rating\": \"R\"\x7d]\x7d"] := by
  constructor
  · decide
  · have h := claim1_parallel_pairing_by_id tool_mapping_wl []
      [⟨"call_w", "lookup_weather", some "\x7b\"city_name\": \"Sydney\"\x7d"⟩,
       ⟨"call_m", "lookup_movies", some "\x7b\"city_name\": \"Sydney\"\x7d"⟩] [1, 0]
      (by
        intro tc htc
        fin_cases htc
        · exact ⟨⟨_, rfl⟩, rfl⟩
        · exact ⟨⟨_, rfl⟩, rfl⟩)
      (by
        intro tc htc
        fin_cases htc
        · exact ⟨_, _, rfl, rfl⟩
        · exact ⟨_, _, rfl, rfl⟩)
      (by decide)
    exact h.trans (by rfl)

set_option maxRecDepth 16384

/-- C2 counterexample: a request whose `raw_arguments` is the malformed
text `"\x7bbad json"` makes the while-loop variant raise
`json.JSONDecodeError` (aborting the run), and likewise the parallel
variant — decoding does not yield a warning outcome in those variants. -/
theorem claim2_counterexample :
    wlProcessOne tool_mapping_wl ⟨"call_1", "lookup_weather", some "\x7bbad json"⟩ =
      .error .jsonDecodeError ∧
    parallelDispatch tool_mapping_wl []
      [⟨"call_1", "lookup_weather", some "\x7bbad json"⟩] [0] =
      .error .jsonDecodeError := by
  exact ⟨rfl, rfl⟩

/-- C2 (amended): in the guarded variants (extended-errors and few-shot
scripts, English and Spanish), a request whose effective argument text is
not all-whitespace and is not well-formed JSON yields the variant's
`ArgumentDecodeError` warning string as the tool-role message content, and
the dispatch step is a total function — it never raises. The while-loop
and parallel variants instead abort (see `claim2_counterexample`). -/
theorem claim2_malformed_json_yields_warning (vt : VariantText)
    (registry : List (String × ToolFn)) (tc : ToolCallRequest) (f : ToolFn)
    (hreg : lookupTool registry tc.name = some f)
    (hws : pyStripEmpty (pyOrStr tc.arguments "\x7b\x7d") = false)
    (hbad : jsonLoads (pyOrStr tc.arguments "\x7b\x7d") = .error ()) :
    extProcessOne vt registry tc =
      Message.tool tc.id (some tc.name) (jstr vt.malformedMsg) := by
  unfold extProcessOne extToolResult
  rw [hreg]
  dsimp only
  rw [hws]
  simp only [Bool.false_eq_true, if_false]
  rw [hbad]
  rfl

/-- C2 witness: the malformed text `"\x7bbad json"` in the English
extended-errors variant produces the warning tool message. -/
theorem claim2_witness :
    lookupTool tool_mapping_ext "lookup_weather" = some ExtErrors.lookup_weather ∧
    extProcessOne enText tool_mapping_ext ⟨"call_1", "lookup_weather", some "\x7bbad json"⟩ =
      Message.tool "call_1" (some "lookup_weather")
        "\"Warning: Malformed JSON arguments received; proceeding with empty args\"" := by
  refine ⟨rfl, ?_⟩
  have h := claim2_malformed_json_yields_warning enText tool_mapping_ext
    ⟨"call_1", "lookup_weather", some "\x7bbad json"⟩ ExtErrors.lookup_weather rfl rfl rfl
  exact h.trans (by rfl)

/-- C3 counterexample: a request naming the unregistered tool
`lookup_currency` makes the while-loop variant raise `TypeError` (calling
the `None` returned by `tool_mapping.get`), aborting the run, while the
parallel variant appends no message at all for it — neither yields a
`ToolNotFound` tool-role message. -/
theorem claim3_counterexample :
    wlProcessOne tool_mapping_wl ⟨"call_1", "lookup_currency", some "\x7b\x7d"⟩ =
      .error (.typeError "\x27NoneType\x27 object is not callable") ∧
    parallelDispatch tool_mapping_wl []
      [⟨"call_2", "lookup_currency", some "\x7b\x7d"⟩] [] = .ok [] := by
  exact ⟨rfl, rfl⟩

/-- C3 (amended): in the guarded variants, a request naming a tool absent
from the registry yields the variant's `ToolNotFound` error string as the
tool-role message content, and the dispatch step never raises (it is a
total function). The while-loop variant instead raises `TypeError` and the
parallel variant silently drops the request (see `claim3_counterexample`). -/
theorem claim3_unknown_tool_yields_error_message (vt : VariantText)
    (registry : List (String × ToolFn)) (tc : ToolCallRequest)
    (hreg : lookupTool registry tc.name = none) :
    extProcessOne vt registry tc =
      Message.tool tc.id (some tc.name) (jstr (vt.notFoundMsg tc.name)) := by
  unfold extProcessOne extToolResult
  rw [hreg]
  rfl

/-- C3 witness: the unknown name `lookup_currency` in the English
extended-errors variant produces the registered-nowhere error message. -/
theorem claim3_witness :
    lookupTool tool_mapping_ext "lookup_currency" = none ∧
    extProcessOne enText tool_mapping_ext ⟨"call_1", "lookup_currency", some "\x7b\x7d"⟩ =
      Message.tool "call_1" (some "lookup_currency")
        "\"ERROR: No implementation registered for tool \x27lookup_currency\x27\"" := by
  refine ⟨rfl, ?_⟩
  have h := claim3_unknown_tool_yields_error_message enText tool_mapping_ext
    ⟨"call_1", "lookup_currency", some "\x7b\x7d"⟩ rfl
  exact h.trans (by rfl)

/-- C4 counterexample: a tool body raising during invocation — here
`lookup_weather(**\x7b"foo": 1\x7d)`, which raises `TypeError` for the
unexpected keyword — propagates out of the while-loop variant's dispatch
and out of the parallel variant's `future.result()`, aborting both runs
instead of yielding an `ExecutionError` outcome. -/
theorem claim4_counterexample :
    wlProcessOne tool_mapping_wl ⟨"call_1", "lookup_weather", some "\x7b\"foo\": 1\x7d"⟩ =
      .error (.execError "lookup_weather() got an unexpected keyword argument") ∧
    parallelDispatch tool_mapping_wl []
      [⟨"call_1", "lookup_weather", some "\x7b\"foo\": 1\x7d"⟩] [0] =
      .error (.execError "lookup_weather() got an unexpected keyword argument") := by
  exact ⟨rfl, rfl⟩

/-- C4 (amended): in the guarded variants, a tool body that raises during
invocation (including type errors from missing or extra required
parameters) yields the variant's `ExecutionError` string — carrying the
tool's name — as the tool-role message content, and the exception never
propagates (the dispatch step is a total function). The while-loop and
parallel variants instead abort (see `claim4_counterexample`). -/
theorem claim4_tool_exception_yields_execution_error (vt : VariantText)
    (registry : List (String × ToolFn)) (tc : ToolCallRequest) (f : ToolFn)
    (parsed : JValue) (e : String)
    (hreg : lookupTool registry tc.name = some f)
    (hws : pyStripEmpty (pyOrStr tc.arguments "\x7b\x7d") = false)
    (hparse : jsonLoads (pyOrStr tc.arguments "\x7b\x7d") = .ok parsed)
    (hraise : callKw f parsed = .error e) :
    extProcessOne vt registry tc =
      Message.tool tc.id (some tc.name) (jstr (vt.execErrMsg tc.name e)) := by
  unfold extProcessOne extToolResult
  rw [hreg]
  dsimp only
  rw [hws]
  simp only [Bool.false_eq_true, if_false]
  rw [hparse]
  dsimp only
  unfold extCallGuarded
  rw [hraise]
  rfl

/-- C4 witness: `lookup_weather` called with the unexpected keyword `foo`
in the English extended-errors variant produces the execution-error tool
message naming the tool. -/
theorem claim4_witness :
    callKw ExtErrors.lookup_weather (.obj [("foo", .num 1)]) =
      .error "lookup_weather() got an unexpected keyword argument" ∧
    extProcessOne enText tool_mapping_ext ⟨"call_1", "lookup_weather", some "\x7b\"foo\": 1\x7d"⟩ =
      Message.tool "call_1" (some "lookup_weather")
        "\"Tool execution error in lookup_weather: lookup_weather() got an unexpected keyword argument\"" := by
  refine ⟨rfl, ?_⟩
  have h := claim4_tool_exception_yields_execution_error enText tool_mapping_ext
    ⟨"call_1", "lookup_weather", some "\x7b\"foo\": 1\x7d"⟩ ExtErrors.lookup_weather
    (.obj [("foo", .num 1)]) "lookup_weather() got an unexpected keyword argument"
    rfl rfl rfl rfl
  exact h.trans (by rfl)

/-- C5 counterexample: a response carrying one tool-call request (with
malformed arguments) does not cause another round-trip — the loop aborts
with an uncaught `json.JSONDecodeError` and the following zero-tool-call
response is never consumed; the loop thus terminated without the model
ever returning an assistant message with zero tool-call requests. -/
theorem claim5_counterexample :
    wlLoop tool_mapping_wl []
      [⟨some "checking", [⟨"call_1", "lookup_weather", some "\x7bbad"⟩]⟩,
       ⟨some "done", []⟩] = .crashed .jsonDecodeError := by
  rfl

/-- C5 (amended): the continuous loop returns a final answer exactly when
the response stream reaches a response with zero tool-call requests after
a (possibly empty) prefix of responses that all carry at least one
tool-call request and whose dispatches all succeed; a tool-call-bearing
response whose dispatch raises aborts the run instead of causing another
round-trip. -/
theorem claim5_loop_termination (registry : List (String × ToolFn))
    (msgs : List Message) (rs : List ModelResponse) (c : Option String) :
    wlLoop registry msgs rs = .finalAnswer c ↔
      ∃ pre r post, rs = pre ++ r :: post ∧ r.tool_calls = [] ∧ c = r.content ∧
        ∀ p ∈ pre, p.tool_calls ≠ [] ∧ ∃ ms, wlDispatchMsgs registry p.tool_calls = .ok ms := by
  induction rs generalizing msgs with
  | nil =>
    constructor
    · intro h
      exact absurd h (by simp [wlLoop])
    · rintro ⟨pre, r, post, h, -, -, -⟩
      exact absurd h.symm (List.append_ne_nil_of_right_ne_nil pre (List.cons_ne_nil r post))
  | cons a rs' ih =>
    rcases hatc : a.tool_calls with _ | ⟨tc0, tcs0⟩
    · have hstep : wlLoop registry msgs (a :: rs') = .finalAnswer a.content := by
        simp [wlLoop, hatc]
      rw [hstep]
      constructor
      · intro h
        have hc : c = a.content := (LoopResult.finalAnswer.inj h).symm
        exact ⟨[], a, rs', rfl, hatc, hc, by intro p hp; exact absurd hp (List.not_mem_nil p)⟩
      · rintro ⟨pre, r, post, heq, hr, hc, hpre⟩
        rcases pre with _ | ⟨p0, pre'⟩
        · obtain ⟨h1, -⟩ := List.cons.inj heq
          rw [hc, h1]
        · obtain ⟨h1, -⟩ := List.cons.inj heq
          obtain ⟨hne, -⟩ := hpre p0 (List.mem_cons_self p0 pre')
          rw [← h1] at hne
          exact absurd hatc hne
    · have hne : a.tool_calls ≠ [] := by
        rw [hatc]
        exact List.cons_ne_nil tc0 tcs0
      rcases hd : wlDispatchMsgs registry a.tool_calls with e | newMsgs
      · have hstep : wlLoop registry msgs (a :: rs') = .crashed e := by
          rw [wlLoop]
          rw [if_neg (by simp [hatc])]
          rw [hd]
        rw [hstep]
        constructor
        · intro h
          exact absurd h (by simp)
        · rintro ⟨pre, r, post, heq, hr, hc, hpre⟩
          rcases pre with _ | ⟨p0, pre'⟩
          · obtain ⟨h1, -⟩ := List.cons.inj heq
            rw [← h1] at hr
            exact absurd hr hne
          · obtain ⟨h1, -⟩ := List.cons.inj heq
            obtain ⟨-, ms, hms⟩ := hpre p0 (List.mem_cons_self p0 pre')
            rw [← h1, hd] at hms
            exact Except.noConfusion hms
      · have hstep : wlLoop registry msgs (a :: rs') =
            wlLoop registry (msgs ++ [Message.assistant (pyOrStr a.content "") a.tool_calls] ++ newMsgs) rs' := by
          rw [wlLoop]
          rw [if_neg (by simp [hatc])]
          rw [hd]
        rw [hstep, ih]
        constructor
        · rintro ⟨pre, r, post, heq, hr, hc, hpre⟩
          refine ⟨a :: pre, r, post, by rw [heq]; rfl, hr, hc, ?_⟩
          intro p hp
          rcases List.mem_cons.mp hp with h | h
          · subst h
            exact ⟨hne, newMsgs, hd⟩
          · exact hpre p h
        · rintro ⟨pre, r, post, heq, hr, hc, hpre⟩
          rcases pre with _ | ⟨p0, pre'⟩
          · obtain ⟨h1, -⟩ := List.cons.inj heq
            rw [← h1] at hr
            exact absurd hr hne
          · obtain ⟨h1, h2⟩ := List.cons.inj heq
            refine ⟨pre', r, post, h2, hr, hc, ?_⟩
            intro p hp
            exact hpre p (List.mem_cons_of_mem p0 hp)

/-- C5 witness: a stream whose second response carries no tool calls, after
a first response whose single `lookup_weather` dispatch succeeds, makes
the loop terminate with that second response's content. -/
theorem claim5_witness :
    wlLoop tool_mapping_wl []
      [⟨some "checking", [⟨"call_1", "lookup_weather", some "\x7b\x7d"⟩]⟩,
       ⟨some "it is rainy", []⟩] = .finalAnswer (some "it is rainy") := by
  apply (claim5_loop_termination tool_mapping_wl [] _ _).mpr
  refine ⟨[⟨some "checking", [⟨"call_1", "lookup_weather", some "\x7b\x7d"⟩]⟩],
    ⟨some "it is rainy", []⟩, [], rfl, rfl, rfl, ?_⟩
  intro p hp
  fin_cases hp
  exact ⟨by simp, _, rfl⟩

/-- C6 counterexample: the parallel variant's collection loop appends the
tool message as `\x7b"role": "tool", "tool_call_id": ..., "content": ...\x7d`
with no `name` field — here the message for `call_1` carries `none` as its
name — contradicting the claim that every variant includes the tool's
name. -/
theorem claim6_counterexample :
    parallelDispatch tool_mapping_wl []
      [⟨"call_1", "lookup_weather", some "\x7b\x7d"⟩] [0] =
      .ok [Message.tool "call_1" none
        "\x7b\"location\": \"unknown\", \"condition\": \"rain showers\", \"rain_mm_last_24h\": 7, \"recommendation\": \"Good day for indoor activities if you dislike drizzle.\"\x7d"] := by
  rfl

/-- C6 (amended): every tool-role message appended by any variant echoes
the exact id of its originating request; the sequential variants (guarded
and while-loop) also set the `name` field to the request's tool name,
while the parallel variant appends its messages with no `name` field. -/
theorem claim6_tool_message_id_and_name :
    (∀ (vt : VariantText) (registry : List (String × ToolFn)) (tc : ToolCallRequest),
      ∃ s, extProcessOne vt registry tc = Message.tool tc.id (some tc.name) s)
    ∧ (∀ (registry : List (String × ToolFn)) (tc : ToolCallRequest) (m : Message),
      wlProcessOne registry tc = .ok m → ∃ s, m = Message.tool tc.id (some tc.name) s)
    ∧ (∀ (log : List (Nat × Except String JValue))
        (futs : List (ToolCallRequest × Except String JValue))
        (msgs : List Message) (i : Nat) (msgs' : List Message),
      parCollect log msgs i futs = .ok msgs' →
      ∃ contents, msgs' = msgs ++
        List.zipWith (fun ft s => Message.tool (Prod.fst ft).id none s) futs contents) := by
  refine ⟨?_, ?_, ?_⟩
  · intro vt registry tc
    exact ⟨_, rfl⟩
  · intro registry tc m h
    simp only [wlProcessOne] at h
    split at h
    · exact Except.noConfusion h
    · split at h
      · exact Except.noConfusion h
      · split at h
        · exact Except.noConfusion h
        · split at h
          · exact Except.noConfusion h
          · exact ⟨_, (Except.ok.inj h).symm⟩
  · intro log futs
    induction futs with
    | nil =>
      intro msgs i msgs' h
      refine ⟨[], ?_⟩
      have : msgs = msgs' := Except.ok.inj h
      simp [← this]
    | cons ft rest ih =>
      intro msgs i msgs' h
      obtain ⟨tc, job⟩ := ft
      unfold parCollect at h
      split at h
      · exact Except.noConfusion h
      · exact Except.noConfusion h
      · split at h
        · exact Except.noConfusion h
        · rename_i a s hs
          obtain ⟨contents, hc⟩ := ih _ _ _ h
          refine ⟨s :: contents, ?_⟩
          rw [hc]
          simp

/-- C6 witness: concrete instances of the three dispatchers — the guarded
variant and the while-loop variant echo the id and set the name, the
parallel collection loop echoes the id with no name. -/
theorem claim6_witness :
    (∃ s, extProcessOne enText tool_mapping_ext ⟨"call_1", "lookup_weather", some "\x7b\x7d"⟩ =
      Message.tool "call_1" (some "lookup_weather") s) ∧
    (∃ s, (Message.tool "call_2" (some "lookup_weather")
        "\x7b\"location\": \"unknown\", \"condition\": \"rain showers\", \"rain_mm_last_24h\": 7, \"recommendation\": \"Good day for indoor activities if you dislike drizzle.\"\x7d" : Message) =
      Message.tool "call_2" (some "lookup_weather") s) ∧
    (∃ contents, ([Message.tool "call_3" none "\"ok\""] : List Message) = [] ++
      List.zipWith (fun ft s => Message.tool (Prod.fst ft).id none s)
        [((⟨"call_3", "lookup_weather", some "\x7b\x7d"⟩ : ToolCallRequest),
          (Except.ok (JValue.str "ok") : Except String JValue))] contents) := by
  refine ⟨?_, ?_, ?_⟩
  · exact claim6_tool_message_id_and_name.1 enText tool_mapping_ext _
  · exact claim6_tool_message_id_and_name.2.1 tool_mapping_wl
      ⟨"call_2", "lookup_weather", some "\x7b\x7d"⟩ _ (by rfl)
  · exact claim6_tool_message_id_and_name.2.2 [(0, Except.ok (JValue.str "ok"))] _ [] 0 _ (by rfl)

/-- C7 counterexample: for a non-serializable success value, the Spanish
extended-errors encoder emits the envelope keyed `resultado`, which is not
the claimed `\x7b"result": <text>\x7d` envelope. -/
theorem claim7_counterexample :
    encodeToolResult "resultado" (JValue.pyobj "<MyObj object>") =
      "\x7b\"resultado\": \"<MyObj object>\"\x7d" ∧
    "\x7b\"resultado\": \"<MyObj object>\"\x7d" ≠ "\x7b\"result\": \"<MyObj object>\"\x7d" := by
  exact ⟨rfl, by decide⟩

/-- C7 (amended): for every success value that is not serializable, the
encoder falls back to a single-field envelope wrapping the value's `str()`
representation under the variant's key (`result` in the English and the
Spanish errors/few-shot variants, `resultado` in the Spanish
extended-errors variant), and encoding always produces a string — it never
fails the turn. -/
theorem claim7_fallback_envelope (key : String) (v : JValue)
    (hns : jsonDumps v = none) :
    encodeToolResult key v = "\x7b" ++ jstr key ++ ": " ++ jstr (pyStr v) ++ "\x7d" := by
  unfold encodeToolResult
  rw [hns]
  rfl

/-- C7 witness: a non-serializable object under the English `result` key. -/
theorem claim7_witness :
    jsonDumps (JValue.pyobj "<Weather object>") = none ∧
    encodeToolResult "result" (JValue.pyobj "<Weather object>") =
      "\x7b\"result\": \"<Weather object>\"\x7d" := by
  refine ⟨rfl, ?_⟩
  have h := claim7_fallback_envelope "result" (JValue.pyobj "<Weather object>") rfl
  exact h.trans (by rfl)

/-- C8 counterexample: whitespace-only argument text crashes the while-loop
variant (`"  "` is truthy, so the `or "\x7b\x7d"` default is skipped and
`json.loads(" ")` raises), and empty argument text crashes the parallel
variant (it calls `json.loads` with no default and no guard) — neither
decodes to an empty parameter set. -/
theorem claim8_counterexample :
    wlProcessOne tool_mapping_wl ⟨"call_1", "lookup_weather", some " "⟩ =
      .error .jsonDecodeError ∧
    parallelDispatch tool_mapping_wl []
      [⟨"call_1", "lookup_weather", some ""⟩] [0] = .error .jsonDecodeError := by
  exact ⟨rfl, rfl⟩

/-- C8 (amended): in the guarded variants, absent (`None`), empty, or
all-whitespace argument text decodes to the empty parameter set with no
decode error: the appended tool message is exactly the message for calling
the tool with no keyword arguments. The while-loop variant raises on
whitespace-only text and the parallel variant raises on empty or
whitespace text (see `claim8_counterexample`). -/
theorem claim8_empty_args_empty_param_set (vt : VariantText)
    (registry : List (String × ToolFn)) (tc : ToolCallRequest) (f : ToolFn)
    (hreg : lookupTool registry tc.name = some f)
    (hws : tc.arguments = none ∨ ∃ s, tc.arguments = some s ∧ pyStripEmpty s = true) :
    extProcessOne vt registry tc = Message.tool tc.id (some tc.name)
      (encodeToolResult vt.fallbackKey (extCallGuarded vt tc.name f (.obj []))) := by
  unfold extProcessOne extToolResult
  rw [hreg]
  dsimp only
  rcases hws with h | ⟨s, h, hstrip⟩
  · rw [h]
    rfl
  · by_cases hs : s = ""
    · rw [h, hs]
      rfl
    · have hraw : pyOrStr (some s) "\x7b\x7d" = s := by
        simp [pyOrStr, hs]
      rw [h, hraw, hstrip]
      simp only [if_true]

/-- C8 witness: whitespace-only arguments for `lookup_weather` in the
English extended-errors variant produce the no-argument weather stub with
no warning. -/
theorem claim8_witness :
    lookupTool tool_mapping_ext "lookup_weather" = some ExtErrors.lookup_weather ∧
    extProcessOne enText tool_mapping_ext ⟨"call_1", "lookup_weather", some "  "⟩ =
      Message.tool "call_1" (some "lookup_weather")
        "\x7b\"location\": \"unknown\", \"weather\": \"sunny\", \"temperature_f\": 75, \"advice\": \"Great day to be outside!\"\x7d" := by
  refine ⟨rfl, ?_⟩
  have h := claim8_empty_args_empty_param_set enText tool_mapping_ext
    ⟨"call_1", "lookup_weather", some "  "⟩ ExtErrors.lookup_weather rfl
    (Or.inr ⟨"  ", rfl, rfl⟩)
  exact h.trans (by rfl)

/-- C9: in single-round-trip mode, a run performs at most one dispatch
pass; the result is unchanged if the follow-up response's tool calls are
discarded (they are never dispatched); exactly one follow-up model call is
issued when the first response requested tools (none otherwise); and the
final content is the first response's content when it had no tool calls,
otherwise the follow-up's content — even if the follow-up again requests
tool calls. -/
theorem claim9_single_round_trip_once (vt : VariantText)
    (registry : List (String × ToolFn)) (msgs : List Message)
    (first followup : ModelResponse) :
    (singleRoundTrip vt registry msgs first followup).dispatchPasses ≤ 1 ∧
    singleRoundTrip vt registry msgs first followup =
      singleRoundTrip vt registry msgs first ⟨followup.content, []⟩ ∧
    (singleRoundTrip vt registry msgs first followup).followupCalls =
      (if first.tool_calls.isEmpty then 0 else 1) ∧
    (singleRoundTrip vt registry msgs first followup).final =
      (if first.tool_calls.isEmpty then first.content else followup.content) := by
  by_cases h : first.tool_calls.isEmpty <;> simp [singleRoundTrip, h]

/-- The keyword-argument set corresponding to optionally supplied
`city_name` and `zip_code` string parameters. -/
def kvsOf (c z : Option String) : List (String × JValue) :=
  (match c with | some s => [("city_name", JValue.str s)] | none => []) ++
  (match z with | some s => [("zip_code", JValue.str s)] | none => [])

/-- The location the claim predicts: `city_name` when it is a non-empty
string, else `zip_code` when it is a non-empty string, else the default. -/
def locExpect (c z : Option String) (dflt : String) : String :=
  match c with
  | some s =>
    if s = "" then
      match z with
      | some t => if t = "" then dflt else t
      | none => dflt
    else s
  | none =>
    match z with
    | some t => if t = "" then dflt else t
    | none => dflt

/-- The optional-parameter sets built by `kvsOf` only mention the two
declared keywords, so Python call binding accepts them. -/
theorem kvsOf_keys (c z : Option String) :
    (kvsOf c z).all (fun p => p.1 == "city_name" || p.1 == "zip_code") = true := by
  rcases c with _ | s <;> rcases z with _ | t <;> rfl

/-- `city_name or zip_code or dflt` over the `kvsOf` parameter set computes
exactly the location the claim predicts. -/
theorem locExpect_core (c z : Option String) (dflt : String) :
    pyOr (pyOr ((dictGet (kvsOf c z) "city_name").getD .null)
      ((dictGet (kvsOf c z) "zip_code").getD .null)) (.str dflt) =
      .str (locExpect c z dflt) := by
  rcases c with _ | s <;> rcases z with _ | t
  · rfl
  · by_cases ht : t = ""
    · subst ht; rfl
    · simp [kvsOf, dictGet, pyOr, truthy, locExpect, ht]
  · by_cases hs : s = ""
    · subst hs; rfl
    · simp [kvsOf, dictGet, pyOr, truthy, locExpect, hs]
  · by_cases hs : s = "" <;> by_cases ht : t = ""
    · subst hs; subst ht; rfl
    · subst hs
      simp [kvsOf, dictGet, pyOr, truthy, locExpect, ht]
    · subst ht
      simp [kvsOf, dictGet, pyOr, truthy, locExpect, hs]
    · simp [kvsOf, dictGet, pyOr, truthy, locExpect, hs, ht]

/-- C10 counterexample: the Spanish extended-errors `lookup_weather`, with
both parameters omitted, returns a mapping whose location field is named
`ubicacion` and holds `"desconocido"` — there is no `location` field equal
to `"unknown"` as the claim states. -/
theorem claim10_counterexample :
    EsExt.lookup_weather [] = .ok (.obj [
      ("ubicacion", .str "desconocido"), ("clima", .str "soleado"),
      ("temperatura_f", .num 75), ("consejo", .str "¡Gran día para estar al aire libre!")]) ∧
    dictGet [
      ("ubicacion", JValue.str "desconocido"), ("clima", JValue.str "soleado"),
      ("temperatura_f", JValue.num 75), ("consejo", JValue.str "¡Gran día para estar al aire libre!")]
      "location" = none := by
  exact ⟨rfl, rfl⟩

/-- C10 (amended): for every invocation with optional string parameters,
the location field — `location` with default `"unknown"` in the English
variants, `ubicacion` with default `"desconocido"` in the Spanish
extended-errors variant — equals `city_name` when it is a non-empty
string, else `zip_code` when it is a non-empty string, else the default;
in particular the call succeeds (never raises) when both parameters are
omitted. -/
theorem claim10_location_precedence (c z : Option String) :
    ExtErrors.lookup_weather (kvsOf c z) = .ok (.obj [
      ("location", .str (locExpect c z "unknown")), ("weather", .str "sunny"),
      ("temperature_f", .num 75), ("advice", .str "Great day to be outside!")]) ∧
    Tourism.lookup_weather (kvsOf c z) = .ok (.obj [
      ("location", .str (locExpect c z "unknown")), ("condition", .str "rain showers"),
      ("rain_mm_last_24h", .num 7),
      ("recommendation", .str "Good day for indoor activities if you dislike drizzle.")]) ∧
    Tourism.lookup_movies (kvsOf c z) = .ok (.obj [
      ("location", .str (locExpect c z "unknown")),
      ("movies", .arr [
        .obj [("title", .str "The Quantum Reef"), ("rating", .str "PG-13")],
        .obj [("title", .str "Storm Over Harbour Bay"), ("rating", .str "PG")],
        .obj [("title", .str "Midnight Koala"), ("rating", .str "R")]])]) ∧
    EsExt.lookup_weather (kvsOf c z) = .ok (.obj [
      ("ubicacion", .str (locExpect c z "desconocido")), ("clima", .str "soleado"),
      ("temperatura_f", .num 75), ("consejo", .str "¡Gran día para estar al aire libre!")]) := by
  refine ⟨?_, ?_, ?_, ?_⟩
  · unfold ExtErrors.lookup_weather
    rw [if_pos (kvsOf_keys c z)]
    dsimp only
    rw [locExpect_core c z "unknown"]
  · unfold Tourism.lookup_weather
    rw [if_pos (kvsOf_keys c z)]
    dsimp only
    rw [locExpect_core c z "unknown"]
  · unfold Tourism.lookup_movies
    rw [if_pos (kvsOf_keys c z)]
    dsimp only
    rw [locExpect_core c z "unknown"]
  · unfold EsExt.lookup_weather
    rw [if_pos (kvsOf_keys c z)]
    dsimp only
    rw [locExpect_core c z "desconocido"]
